import Mathlib

/-!
Verification of the `linux-namespaces-in-go` launcher.

Shallow embedding of `src/linux-namespace.go` (and
`createSysProcIDMappings` from `src/unnamed/part_003`): the pure parts
(flag composition, identity-mapping tables, command construction) are
translated directly; the effectful launch sequences (`main`,
`nsInitialisation`, `nsRun`) are embedded as functions of an explicit
"world" of syscall/subprocess outcomes, returning the writes performed,
the steps attempted, and the process outcome.
-/

namespace LinuxNamespace

/-! ## Clone-flag constants (values of the Go `syscall` package) -/

def CLONE_NEWNS : Nat := 0x00020000

def CLONE_NEWCGROUP : Nat := 0x02000000

def CLONE_NEWUTS : Nat := 0x04000000

def CLONE_NEWIPC : Nat := 0x08000000

def CLONE_NEWUSER : Nat := 0x10000000

def CLONE_NEWPID : Nat := 0x20000000

def CLONE_NEWNET : Nat := 0x40000000

/-- All namespace clone flags listed in the namespaces(7) table reproduced
in the source's comment block. -/
def allNamespaceFlags : List Nat :=
  [CLONE_NEWCGROUP, CLONE_NEWIPC, CLONE_NEWNET, CLONE_NEWNS,
   CLONE_NEWPID, CLONE_NEWUSER, CLONE_NEWUTS]

/-- The six namespace flags the launcher requests. -/
def requestedNamespaceFlags : List Nat :=
  [CLONE_NEWUSER, CLONE_NEWNS, CLONE_NEWUTS, CLONE_NEWIPC,
   CLONE_NEWNET, CLONE_NEWPID]

/-- The `Cloneflags` expression of `main` (src/linux-namespace.go:77-95). -/
def cloneFlags : Nat :=
  CLONE_NEWUSER ||| CLONE_NEWNS ||| CLONE_NEWUTS ||| CLONE_NEWIPC |||
    CLONE_NEWNET ||| CLONE_NEWPID

/-! ## Identity mapping (src/unnamed/part_003, `createSysProcIDMappings`) -/

/-- Go's `syscall.SysProcIDMap`. -/
structure SysProcIDMap where
  ContainerID : Int
  HostID : Int
  Size : Int
deriving Repr, DecidableEq

/-- `createSysProcIDMappings` from src/unnamed/part_003:163-182.  The Go
function reads the caller's real ids with `os.Getuid()` / `os.Getgid()`;
those environment reads are passed here explicitly as `hostUID` /
`hostGID`. -/
def createSysProcIDMappings (containerUID containerGID : Int)
    (hostUID hostGID : Int) :
    List SysProcIDMap × List SysProcIDMap :=
  ([⟨containerUID, hostUID, 1⟩], [⟨containerGID, hostGID, 1⟩])

/-! ## Process-model infrastructure -/

/-- The host-side state `main` can read: the caller's real uid/gid and the
launcher's own environment variables. -/
structure HostState where
  uid : Int
  gid : Int
  env : List String
deriving Repr, DecidableEq

/-- Output channel of a write.  Go's `fmt.Println` / `fmt.Printf` write to
standard output. -/
inductive OutChannel where
  | stdout
  | stderr
deriving Repr, DecidableEq

/-- One write performed by the program. -/
structure Write where
  channel : OutChannel
  msg : String
deriving Repr, DecidableEq

/-- How a modelled process run ends: an explicit `os.Exit`, a Go runtime
panic, or a normal return from the function. -/
inductive Outcome where
  | exit (code : Nat)
  | panicked
  | returned
deriving Repr, DecidableEq

/-- Exit code of the whole process given how the modelled function ended:
a normal return from Go's `main` exits 0; a Go runtime panic exits 2. -/
def exitCodeOf : Outcome → Nat
  | Outcome.exit c => c
  | Outcome.returned => 0
  | Outcome.panicked => 2

/-- Result of a subprocess as Go's `exec.Cmd.Run` observes it: either the
process could not be started, or it ran and exited with a status. -/
inductive RunResult where
  | startError (msg : String)
  | exited (code : Nat)
deriving Repr, DecidableEq

/-- The error value `exec.Cmd.Run` returns: non-nil when the start failed
or the process exited non-zero (an `exec.ExitError`, whose message is
"exit status N"). -/
def runErr : RunResult → Option String
  | RunResult.startError m => some m
  | RunResult.exited c =>
      if c = 0 then none else some ("exit status " ++ toString c)

/-! ## Command construction in `main` (src/linux-namespace.go:52-98) -/

/-- The configured child command: path, argv, environment, clone flags and
identity mappings. -/
structure Cmd where
  path : String
  args : List String
  env : List String
  cloneflags : Nat
  uidMappings : List SysProcIDMap
  gidMappings : List SysProcIDMap
deriving Repr, DecidableEq

def rootfsPath : String := "/tmp/ns-process/rootfs"

/-- The child command `main` builds: `reexec.Command("nsInitialisation",
rootfsPath)` re-executes the current binary (`/proc/self/exe`) with the
entry name as argv[0], env fixed to the single PS1 variable, and the
`SysProcAttr` fields of src/linux-namespace.go:70-97. -/
def mainCmd (h : HostState) : Cmd :=
  ⟨"/proc/self/exe",
   ["nsInitialisation", rootfsPath],
   ["PS1=-[ns-process]- # "],
   cloneFlags,
   (createSysProcIDMappings 0 0 h.uid h.gid).1,
   (createSysProcIDMappings 0 0 h.uid h.gid).2⟩

/-- The shell command built by `nsRun` (src/linux-namespace.go:179-185):
`exec.Command("/bin/sh")` with env fixed to the single PS1 variable,
independent of the host state. -/
structure ShellCmd where
  path : String
  env : List String
deriving Repr, DecidableEq

def nsRunCmd (_h : HostState) : ShellCmd :=
  ⟨"/bin/sh", ["PS1=-[ns-process]- # "]⟩

/-! ## The launcher `main` (src/linux-namespace.go:46-128) -/

/-- The steps `main` attempts, in source order. -/
inductive LStep where
  | startChild
  | runHelper
  | waitChild
deriving Repr, DecidableEq

/-- Outcomes of the operations `main` performs, supplied by the
environment: `cmd.Start()`, the child pid, the `netsetgo` helper run, and
`cmd.Wait()`. -/
structure LauncherWorld where
  startErr : Option String
  childPid : Int
  netsetgoRun : RunResult
  waitErr : Option String
deriving Repr, DecidableEq

def netsetgoPath : String := "./assets/netsetgo"

/-- What a run of `main` did: writes, steps attempted, the helper command
invoked (if reached), and how the process ended. -/
structure LauncherResult where
  writes : List Write
  steps : List LStep
  helperInvoked : Option (String × List String)
  outcome : Outcome
deriving Repr, DecidableEq

/-- Runtime behaviour of `main` (src/linux-namespace.go:46-128): print the
banner, `cmd.Start()`, run `netsetgo -pid <childPID>`, `cmd.Wait()`; each
failure prints a diagnostic with `fmt.Printf` (standard output) and calls
`os.Exit(1)`. -/
def main (w : LauncherWorld) : LauncherResult :=
  let banner : Write := ⟨OutChannel.stdout, "Running linux-namespace...\n"⟩
  match w.startErr with
  | some e =>
      ⟨[banner,
        ⟨OutChannel.stdout, "Error starting the reexec.Command - " ++ e ++ "\n"⟩],
       [LStep.startChild], none, Outcome.exit 1⟩
  | none =>
      let helper := (netsetgoPath, ["-pid", toString w.childPid])
      match runErr w.netsetgoRun with
      | some e =>
          ⟨[banner,
            ⟨OutChannel.stdout, "Error running netsetgo - " ++ e ++ "\n"⟩],
           [LStep.startChild, LStep.runHelper], some helper, Outcome.exit 1⟩
      | none =>
          match w.waitErr with
          | some e =>
              ⟨[banner,
                ⟨OutChannel.stdout, "Error waiting for the reexec.Command - " ++ e ++ "\n"⟩],
               [LStep.startChild, LStep.runHelper, LStep.waitChild],
               some helper, Outcome.exit 1⟩
          | none =>
              ⟨[banner],
               [LStep.startChild, LStep.runHelper, LStep.waitChild],
               some helper, Outcome.returned⟩

/-! ## The bootstrap `nsInitialisation` (src/linux-namespace.go:134-164) -/

/-- The steps `nsInitialisation` attempts, in source order. -/
inductive Step where
  | mountProc
  | pivotRoot
  | setHostname
  | waitNetwork
  | spawnShell
deriving Repr, DecidableEq

/-- Outcomes of the operations the bootstrap performs: `mountProc`,
`pivotRoot`, `syscall.Sethostname`, `waitForNetwork` (each `none` on
success), and the `/bin/sh` run of `nsRun`. -/
structure BootstrapWorld where
  mountProcErr : Option String
  pivotRootErr : Option String
  sethostnameErr : Option String
  waitForNetworkErr : Option String
  shellRun : RunResult
deriving Repr, DecidableEq

/-- What a run of the bootstrap did. -/
structure BootResult where
  writes : List Write
  steps : List Step
  outcome : Outcome
deriving Repr, DecidableEq

/-- `nsRun` (src/linux-namespace.go:178-191): run `/bin/sh`; on a non-nil
`cmd.Run()` error print a diagnostic and `os.Exit(1)`, else return. -/
def nsRun (w : BootstrapWorld) : List Write × Outcome :=
  match runErr w.shellRun with
  | some e =>
      ([⟨OutChannel.stdout, "Error running the /bin/sh command - " ++ e ++ "\n"⟩],
       Outcome.exit 1)
  | none => ([], Outcome.returned)

/-- `nsInitialisation` (src/linux-namespace.go:134-164): print the banner,
read `os.Args[1]` (a runtime panic when absent), then mount proc, pivot
root, set the hostname, wait for the network — each fatal via
`os.Exit(1)` on error — and finally hand off to `nsRun`. -/
def nsInitialisation (args : List String) (w : BootstrapWorld) : BootResult :=
  let banner : Write := ⟨OutChannel.stdout, "\n>> initialising namespace <<\n\n"⟩
  match args[1]? with
  | none => ⟨[banner], [], Outcome.panicked⟩
  | some _newrootPath =>
    match w.mountProcErr with
    | some e =>
        ⟨[banner, ⟨OutChannel.stdout, "Error mounting /proc - " ++ e ++ "\n"⟩],
         [Step.mountProc], Outcome.exit 1⟩
    | none =>
      match w.pivotRootErr with
      | some e =>
          ⟨[banner, ⟨OutChannel.stdout, "Error running pivot_root - " ++ e ++ "\n"⟩],
           [Step.mountProc, Step.pivotRoot], Outcome.exit 1⟩
      | none =>
        match w.sethostnameErr with
        | some e =>
            ⟨[banner, ⟨OutChannel.stdout, "Error setting hostname - " ++ e ++ "\n"⟩],
             [Step.mountProc, Step.pivotRoot, Step.setHostname], Outcome.exit 1⟩
        | none =>
          match w.waitForNetworkErr with
          | some e =>
              ⟨[banner, ⟨OutChannel.stdout, "Error waiting for network - " ++ e ++ "\n"⟩],
               [Step.mountProc, Step.pivotRoot, Step.setHostname, Step.waitNetwork],
               Outcome.exit 1⟩
          | none =>
              let r := nsRun w
              ⟨banner :: r.1,
               [Step.mountProc, Step.pivotRoot, Step.setHostname,
                Step.waitNetwork, Step.spawnShell],
               r.2⟩

/-- The whole re-executed bootstrap process: `reexec.Init` runs
`nsInitialisation`; when it returns normally, the registered `init`
dispatcher calls `os.Exit(0)` (src/linux-namespace.go:168-174), so a
normal return becomes exit status 0. -/
def bootstrapProcess (args : List String) (w : BootstrapWorld) : BootResult :=
  let r := nsInitialisation args w
  match r.outcome with
  | Outcome.returned => ⟨r.writes, r.steps, Outcome.exit 0⟩
  | o => ⟨r.writes, r.steps, o⟩

/-! ## Process-start dispatch (src/linux-namespace.go:168-174) -/

/-- The entry names `init` registers with `reexec.Register`. -/
def registeredEntries : List String := ["nsInitialisation"]

/-- What happens at process start. -/
inductive StartAction where
  | runBootstrapThenExit
  | runLauncher
deriving Repr, DecidableEq

/-- Modelled from the spec: the body of `reexec.Init` is a vendored
dependency, not among the repository's source files; only the `init`
dispatcher that registers `nsInitialisation` and exits on a true return is
(src/linux-namespace.go:168-174).  Per §9, the dispatch inspects the
initial argument marker (argv[0]): if it names a registered entry, the
Bootstrap Entry Point runs and the process exits without entering normal
startup; otherwise the process proceeds as the Launcher. -/
def processStart (argv0 : String) : StartAction :=
  if argv0 ∈ registeredEntries then StartAction.runBootstrapThenExit
  else StartAction.runLauncher

/-! ## Network wait (§4.5), call site src/linux-namespace.go:157-161 -/

/-- Modelled from the spec: the body of `waitForNetwork` is not among the
repository's source files — only its call site in `nsInitialisation` is.
Per §4.5 it is a single-threaded poll loop with a bounded interval and an
upper bound on total wait time, returning success once the device is
present and a timeout error once the bound is exceeded.  `deviceAt i`
says whether the device is present at the i-th poll; the remaining fuel
bounds the number of polls.  Returns the result and the number of polls
performed. -/
def waitForNetworkLoop (deviceAt : Nat → Bool) :
    Nat → Nat → Except String Unit × Nat
  | 0, polls => (Except.error "Timeout waiting for network", polls)
  | fuel + 1, polls =>
      if deviceAt polls then (Except.ok (), polls + 1)
      else waitForNetworkLoop deviceAt fuel (polls + 1)

/-- Modelled from the spec: `waitForNetwork` with an overall bound of
`maxPolls` polls (total wait time = `maxPolls` poll intervals). -/
def waitForNetwork (deviceAt : Nat → Bool) (maxPolls : Nat) :
    Except String Unit × Nat :=
  waitForNetworkLoop deviceAt maxPolls 0

/-! ## End-to-end composition for exit-status propagation -/

/-- The error `cmd.Wait()` hands back to the launcher, as a function of how
the bootstrap child ended: nil exactly when the child exited 0, an
`exec.ExitError` ("exit status N") otherwise; a panicking child exits 2. -/
def waitErrOfChild (o : Outcome) : Option String :=
  match o with
  | Outcome.exit c =>
      if c = 0 then none else some ("exit status " ++ toString c)
  | Outcome.returned => none
  | Outcome.panicked => some ("exit status " ++ toString 2)

/-- Overall launcher exit status when start and helper succeed and the
bootstrap child runs with world `w`: the launcher's `cmd.Wait()` observes
the child's exit status. -/
def endToEndExit (pid : Int) (w : BootstrapWorld) : Nat :=
  exitCodeOf (main ⟨none, pid, RunResult.exited 0,
    waitErrOfChild (bootstrapProcess ["nsInitialisation", rootfsPath] w).outcome⟩).outcome

/-! ## Helper lemmas -/

/-- `nsRun` either exits 1 or returns; it never panics. -/
lemma nsRun_snd_cases (w : BootstrapWorld) :
    (nsRun w).2 = Outcome.exit 1 ∨ (nsRun w).2 = Outcome.returned := by
  rcases h : runErr w.shellRun with _ | e <;> simp [nsRun, h]

/-- With the root-path argument present, the bootstrap either exits 1 at a
failed step or takes the `nsRun` outcome. -/
lemma nsInitialisation_outcome_with_arg (args : List String) (w : BootstrapWorld)
    (p : String) (hg : args[1]? = some p) :
    (nsInitialisation args w).outcome = Outcome.exit 1 ∨
    (nsInitialisation args w).outcome = (nsRun w).2 := by
  rcases hm : w.mountProcErr with _ | e <;>
    rcases hp : w.pivotRootErr with _ | e2 <;>
      rcases hs : w.sethostnameErr with _ | e3 <;>
        rcases hn : w.waitForNetworkErr with _ | e4 <;>
          simp [nsInitialisation, hg, hm, hp, hs, hn]

/-! ## Theorems -/

/-- C2: the Namespace Launcher starts the Bootstrap child with a clone flag
set that is exactly the bitwise union of the user, mount, uts, ipc,
network, and pid namespace flags: the command's `Cloneflags` equal
`cloneFlags`, that value is the (disjoint) union of the six requested
flags, and of all seven namespace flags exactly the six requested ones are
set — in particular the cgroup flag is not. -/
theorem cloneFlags_exactly_six_namespaces :
    (∀ h : HostState, (mainCmd h).cloneflags = cloneFlags) ∧
    cloneFlags = CLONE_NEWUSER + CLONE_NEWNS + CLONE_NEWUTS +
      CLONE_NEWIPC + CLONE_NEWNET + CLONE_NEWPID ∧
    ∀ f ∈ allNamespaceFlags,
      (cloneFlags &&& f ≠ 0 ↔ f ∈ requestedNamespaceFlags) :=
  ⟨fun _ => rfl, by decide, by decide⟩

/-- C2 witness: the cgroup namespace flag is not part of the clone set. -/
theorem cloneFlags_exactly_six_namespaces_witness :
    ¬ (cloneFlags &&& CLONE_NEWCGROUP ≠ 0) :=
  fun hne =>
    absurd ((cloneFlags_exactly_six_namespaces.2.2 CLONE_NEWCGROUP (by decide)).mp hne)
      (by decide)

/-- C3: for every pair of container ids (and every host identity), the
Identity Mapper returns two tables each with exactly one entry of size 1 —
UID table mapping `containerUID` to the host uid, GID table mapping
`containerGID` to the host gid — and at its sole call site in `main` it is
invoked with containerUID = 0 and containerGID = 0, so the built command
maps the caller to root inside the new user namespace. -/
theorem createSysProcIDMappings_single_entry :
    ∀ (cu cg hu hg : Int) (h : HostState),
      (createSysProcIDMappings cu cg hu hg).1 = [⟨cu, hu, 1⟩] ∧
      (createSysProcIDMappings cu cg hu hg).2 = [⟨cg, hg, 1⟩] ∧
      (mainCmd h).uidMappings = [⟨0, h.uid, 1⟩] ∧
      (mainCmd h).gidMappings = [⟨0, h.gid, 1⟩] :=
  fun _ _ _ _ _ => ⟨rfl, rfl, rfl, rfl⟩

/-- C9: for every host environment (indeed every host state), the
environment of the Bootstrap child command and of the inner shell command
is exactly the single variable `PS1=-[ns-process]- # `; two launches under
different host environments produce identical child environments, so no
host variable propagates. -/
theorem container_env_fixed :
    ∀ h₁ h₂ : HostState,
      (mainCmd h₁).env = ["PS1=-[ns-process]- # "] ∧
      (nsRunCmd h₁).env = ["PS1=-[ns-process]- # "] ∧
      (mainCmd h₁).env = (mainCmd h₂).env ∧
      (nsRunCmd h₁).env = (nsRunCmd h₂).env :=
  fun _ _ => ⟨rfl, rfl, rfl, rfl⟩

/-- C6: process-start dispatch.  If argv[0] names a registered bootstrap
entry, the bootstrap runs and the process exits without entering the
Launcher's `main`; otherwise the process proceeds as the Launcher.  The
child command built by `main` carries the registered entry name as its
argv[0], so the re-executed bootstrap process never re-enters the
Launcher. -/
theorem processStart_dispatch :
    (∀ h : HostState,
      processStart ((mainCmd h).args.headD "") = StartAction.runBootstrapThenExit) ∧
    processStart "nsInitialisation" = StartAction.runBootstrapThenExit ∧
    ∀ a : String, a ∉ registeredEntries → processStart a = StartAction.runLauncher :=
  ⟨fun _ => rfl, rfl, fun _a ha => if_neg ha⟩

/-- C6 witness: an unregistered argv[0] proceeds as the Launcher, and the
bootstrap child's argv[0] dispatches to the bootstrap entry. -/
theorem processStart_dispatch_witness :
    processStart "linux-namespace" = StartAction.runLauncher ∧
    processStart ((mainCmd ⟨1000, 1000, []⟩).args.headD "") =
      StartAction.runBootstrapThenExit :=
  ⟨processStart_dispatch.2.2 "linux-namespace" (by decide),
   processStart_dispatch.1 ⟨1000, 1000, []⟩⟩

/-- C10: the Bootstrap Entry Point reads the root path as `os.Args[1]`
unconditionally: it panics exactly when no argument follows the entry
name (argument-list length at most 1), and in that case it has printed
only the banner and attempted no step — a runtime panic, not a diagnostic
error exit. -/
theorem nsInitialisation_missing_arg_panics :
    ∀ (args : List String) (w : BootstrapWorld),
      ((nsInitialisation args w).outcome = Outcome.panicked ↔ args.length ≤ 1) ∧
      (args.length ≤ 1 →
        (nsInitialisation args w).writes =
          [⟨OutChannel.stdout, "\n>> initialising namespace <<\n\n"⟩] ∧
        (nsInitialisation args w).steps = []) := by
  intro args w
  rcases hg : args[1]? with _ | p
  · have hlen : args.length ≤ 1 := List.getElem?_eq_none_iff.mp hg
    simp [nsInitialisation, hg, hlen]
  · obtain ⟨h1, -⟩ := List.getElem?_eq_some_iff.mp hg
    have hlen : ¬ args.length ≤ 1 := by omega
    have hnt : (nsInitialisation args w).outcome ≠ Outcome.panicked := by
      rcases nsInitialisation_outcome_with_arg args w p hg with h | h <;>
        rcases nsRun_snd_cases w with h2 | h2 <;> simp [h, h2]
    refine ⟨⟨fun hpan => absurd hpan hnt, fun hle => absurd hle hlen⟩,
      fun hle => absurd hle hlen⟩

/-- C10 witness: re-executed with only the entry name, the bootstrap
panics; with the root path present it does not. -/
theorem nsInitialisation_missing_arg_panics_witness :
    (nsInitialisation ["nsInitialisation"]
      ⟨none, none, none, none, RunResult.exited 0⟩).outcome = Outcome.panicked ∧
    (nsInitialisation ["nsInitialisation"]
      ⟨none, none, none, none, RunResult.exited 0⟩).steps = [] :=
  ⟨(nsInitialisation_missing_arg_panics ["nsInitialisation"]
      ⟨none, none, none, none, RunResult.exited 0⟩).1.mpr (by decide),
   ((nsInitialisation_missing_arg_panics ["nsInitialisation"]
      ⟨none, none, none, none, RunResult.exited 0⟩).2 (by decide)).2⟩

/-- C1: the Bootstrap Entry Point executes its steps in the fixed order
mount-proc, pivot-root, set-hostname, wait-for-network, spawn-shell; a
failure at any step exits 1 before any later step is attempted, and the
shell is spawned only when all four earlier steps (the network wait in
particular) have succeeded. -/
theorem nsInitialisation_step_order :
    ∀ (args : List String) (w : BootstrapWorld) (p : String),
      args[1]? = some p →
      (w.mountProcErr ≠ none →
        (nsInitialisation args w).steps = [Step.mountProc] ∧
        (nsInitialisation args w).outcome = Outcome.exit 1) ∧
      (w.mountProcErr = none → w.pivotRootErr ≠ none →
        (nsInitialisation args w).steps = [Step.mountProc, Step.pivotRoot] ∧
        (nsInitialisation args w).outcome = Outcome.exit 1) ∧
      (w.mountProcErr = none → w.pivotRootErr = none → w.sethostnameErr ≠ none →
        (nsInitialisation args w).steps =
          [Step.mountProc, Step.pivotRoot, Step.setHostname] ∧
        (nsInitialisation args w).outcome = Outcome.exit 1) ∧
      (w.mountProcErr = none → w.pivotRootErr = none → w.sethostnameErr = none →
        w.waitForNetworkErr ≠ none →
        (nsInitialisation args w).steps =
          [Step.mountProc, Step.pivotRoot, Step.setHostname, Step.waitNetwork] ∧
        (nsInitialisation args w).outcome = Outcome.exit 1) ∧
      (w.mountProcErr = none → w.pivotRootErr = none → w.sethostnameErr = none →
        w.waitForNetworkErr = none →
        (nsInitialisation args w).steps =
          [Step.mountProc, Step.pivotRoot, Step.setHostname,
           Step.waitNetwork, Step.spawnShell]) ∧
      (Step.spawnShell ∈ (nsInitialisation args w).steps →
        w.mountProcErr = none ∧ w.pivotRootErr = none ∧
        w.sethostnameErr = none ∧ w.waitForNetworkErr = none) := by
  intro args w p hg
  rcases hm : w.mountProcErr with _ | e <;>
    rcases hp : w.pivotRootErr with _ | e2 <;>
      rcases hs : w.sethostnameErr with _ | e3 <;>
        rcases hn : w.waitForNetworkErr with _ | e4 <;>
          simp [nsInitialisation, hg, hm, hp, hs, hn]

/-- C1 witness: with a failing network wait the bootstrap stops after the
wait step with exit 1; with everything succeeding all five steps run. -/
theorem nsInitialisation_step_order_witness :
    ((nsInitialisation ["nsInitialisation", "/tmp/ns-process/rootfs"]
        ⟨none, none, none, some "timeout", RunResult.exited 0⟩).steps =
      [Step.mountProc, Step.pivotRoot, Step.setHostname, Step.waitNetwork] ∧
     (nsInitialisation ["nsInitialisation", "/tmp/ns-process/rootfs"]
        ⟨none, none, none, some "timeout", RunResult.exited 0⟩).outcome =
      Outcome.exit 1) ∧
    (nsInitialisation ["nsInitialisation", "/tmp/ns-process/rootfs"]
        ⟨none, none, none, none, RunResult.exited 0⟩).steps =
      [Step.mountProc, Step.pivotRoot, Step.setHostname,
       Step.waitNetwork, Step.spawnShell] :=
  ⟨((nsInitialisation_step_order ["nsInitialisation", "/tmp/ns-process/rootfs"]
      ⟨none, none, none, some "timeout", RunResult.exited 0⟩ "/tmp/ns-process/rootfs"
      rfl).2.2.2.1) rfl rfl rfl (by simp),
   ((nsInitialisation_step_order ["nsInitialisation", "/tmp/ns-process/rootfs"]
      ⟨none, none, none, none, RunResult.exited 0⟩ "/tmp/ns-process/rootfs"
      rfl).2.2.2.2.1) rfl rfl rfl rfl⟩

/-- C4: the Namespace Launcher exits 1 with a diagnostic, without retrying,
exactly when the child start fails, the helper run fails, or the final
wait fails; the helper is invoked as `./assets/netsetgo -pid <childPID>`
only after a successful start; a failed start attempts no later step; and
on the non-failing path `main` returns normally (process exit 0). -/
theorem main_failure_modes :
    ∀ w : LauncherWorld,
      ((main w).outcome = Outcome.exit 1 ∨ (main w).outcome = Outcome.returned) ∧
      ((main w).outcome = Outcome.exit 1 ↔
        (w.startErr ≠ none ∨ runErr w.netsetgoRun ≠ none ∨ w.waitErr ≠ none)) ∧
      (w.startErr ≠ none →
        (main w).steps = [LStep.startChild] ∧ (main w).helperInvoked = none) ∧
      (w.startErr = none →
        (main w).helperInvoked = some (netsetgoPath, ["-pid", toString w.childPid])) ∧
      (w.startErr = none → runErr w.netsetgoRun ≠ none →
        (main w).steps = [LStep.startChild, LStep.runHelper]) ∧
      ((main w).outcome = Outcome.exit 1 → (main w).writes.length = 2) ∧
      ((main w).outcome = Outcome.returned → exitCodeOf (main w).outcome = 0) := by
  intro w
  rcases hs : w.startErr with _ | e <;>
    rcases hn : runErr w.netsetgoRun with _ | e2 <;>
      rcases hw : w.waitErr with _ | e3 <;>
        simp [main, hs, hn, hw, exitCodeOf]

/-- C4 witness: with a failing helper the launcher exits 1 after invoking
`./assets/netsetgo -pid 7`, attempting no wait step. -/
theorem main_failure_modes_witness :
    (main ⟨none, 7, RunResult.exited 1, none⟩).outcome = Outcome.exit 1 ∧
    (main ⟨none, 7, RunResult.exited 1, none⟩).helperInvoked =
      some ("./assets/netsetgo", ["-pid", "7"]) ∧
    (main ⟨none, 7, RunResult.exited 1, none⟩).steps =
      [LStep.startChild, LStep.runHelper] :=
  ⟨(main_failure_modes ⟨none, 7, RunResult.exited 1, none⟩).2.1.mpr
      (Or.inr (Or.inl (by decide))),
   (main_failure_modes ⟨none, 7, RunResult.exited 1, none⟩).2.2.2.1 rfl,
   (main_failure_modes ⟨none, 7, RunResult.exited 1, none⟩).2.2.2.2.1 rfl
      (by decide)⟩

/-- Correctness of the poll loop: starting at index `start` with `fuel`
polls left, it succeeds exactly when the device appears at some poll index
in `[start, start + fuel)`, performs at most `start + fuel` polls, and
otherwise yields the timeout error. -/
lemma waitForNetworkLoop_spec (d : Nat → Bool) :
    ∀ (fuel start : Nat),
      ((waitForNetworkLoop d fuel start).1 = Except.ok () ↔
        ∃ i, start ≤ i ∧ i < start + fuel ∧ d i = true) ∧
      (waitForNetworkLoop d fuel start).2 ≤ start + fuel ∧
      ((waitForNetworkLoop d fuel start).1 = Except.ok () ∨
        (waitForNetworkLoop d fuel start).1 =
          Except.error "Timeout waiting for network") := by
  intro fuel
  induction fuel with
  | zero =>
      intro start
      refine ⟨?_, by simp [waitForNetworkLoop], by simp [waitForNetworkLoop]⟩
      simp only [waitForNetworkLoop]
      constructor
      · intro h; cases h
      · rintro ⟨i, h1, h2, -⟩; omega
  | succ n ih =>
      intro start
      cases hd : d start with
      | true =>
          have hred : waitForNetworkLoop d (n + 1) start = (Except.ok (), start + 1) := by
            simp [waitForNetworkLoop, hd]
          rw [hred]
          refine ⟨?_, by show start + 1 ≤ start + (n + 1); omega, Or.inl rfl⟩
          constructor
          · intro _; exact ⟨start, Nat.le_refl start, by omega, hd⟩
          · intro _; rfl
      | false =>
          obtain ⟨ih1, ih2, ih3⟩ := ih (start + 1)
          have hred : waitForNetworkLoop d (n + 1) start =
              waitForNetworkLoop d n (start + 1) := by
            simp [waitForNetworkLoop, hd]
          rw [hred]
          refine ⟨?_, by omega, ih3⟩
          rw [ih1]
          constructor
          · rintro ⟨i, h1, h2, h3⟩; exact ⟨i, by omega, by omega, h3⟩
          · rintro ⟨i, h1, h2, h3⟩
            rcases Nat.eq_or_lt_of_le h1 with he | hl
            · rw [← he] at h3; rw [h3] at hd; cases hd
            · exact ⟨i, by omega, by omega, h3⟩

/-- C5: the Network Bridge Waiter returns within the poll bound (at most
`maxPolls` polls), returns success exactly when the device appears at some
poll within the bound, and returns the timeout error rather than blocking
when the device never appears within the bound. -/
theorem waitForNetwork_bounded_and_correct :
    ∀ (deviceAt : Nat → Bool) (maxPolls : Nat),
      ((waitForNetwork deviceAt maxPolls).1 = Except.ok () ↔
        ∃ i, i < maxPolls ∧ deviceAt i = true) ∧
      (waitForNetwork deviceAt maxPolls).2 ≤ maxPolls ∧
      ((¬ ∃ i, i < maxPolls ∧ deviceAt i = true) →
        (waitForNetwork deviceAt maxPolls).1 =
          Except.error "Timeout waiting for network") := by
  intro d m
  obtain ⟨h1, h2, h3⟩ := waitForNetworkLoop_spec d m 0
  refine ⟨?_, by simpa [waitForNetwork] using h2, ?_⟩
  · rw [waitForNetwork, h1]
    constructor
    · rintro ⟨i, -, hi, hdev⟩; exact ⟨i, by omega, hdev⟩
    · rintro ⟨i, hi, hdev⟩; exact ⟨i, Nat.zero_le i, by omega, hdev⟩
  · intro hne
    rcases h3 with hok | herr
    · exfalso
      obtain ⟨i, -, hi, hdev⟩ := h1.mp hok
      exact hne ⟨i, by omega, hdev⟩
    · exact herr

/-- C5 witness: a device appearing at the third poll yields success within
a five-poll bound; a device that never appears yields the timeout error. -/
theorem waitForNetwork_bounded_and_correct_witness :
    (waitForNetwork (fun i => decide (2 ≤ i)) 5).1 = Except.ok () ∧
    (waitForNetwork (fun _ => false) 5).1 =
      Except.error "Timeout waiting for network" :=
  ⟨(waitForNetwork_bounded_and_correct (fun i => decide (2 ≤ i)) 5).1.mpr
      ⟨2, by decide, by decide⟩,
   (waitForNetwork_bounded_and_correct (fun _ => false) 5).2.2
      (by rintro ⟨i, -, h⟩; cases h)⟩

/-- C7 counterexample: a shell exiting with status 5 (all bootstrap steps
succeeding) makes the bootstrap — and the whole launch — exit with status
1, not with the shell's status 5, so the shell's exit status is not
propagated. -/
theorem shell_exit_status_not_propagated :
    (bootstrapProcess ["nsInitialisation", rootfsPath]
        ⟨none, none, none, none, RunResult.exited 5⟩).outcome = Outcome.exit 1 ∧
    (bootstrapProcess ["nsInitialisation", rootfsPath]
        ⟨none, none, none, none, RunResult.exited 5⟩).outcome ≠ Outcome.exit 5 ∧
    endToEndExit 42 ⟨none, none, none, none, RunResult.exited 5⟩ = 1 ∧
    (1 : Nat) ≠ 5 := by
  refine ⟨rfl, by decide, rfl, by decide⟩

/-- C7 amended: the Shell Launcher is the terminal operation and the
overall program exits 0 exactly when the shell exits normally (status 0);
when the shell exits non-zero, the bootstrap — and thereby the launcher —
exits with status 1, collapsing the shell's specific status. -/
theorem shell_exit_determines_launcher_exit :
    ∀ (pid : Int) (s : Nat),
      (bootstrapProcess ["nsInitialisation", rootfsPath]
          ⟨none, none, none, none, RunResult.exited s⟩).outcome =
        Outcome.exit (if s = 0 then 0 else 1) ∧
      endToEndExit pid ⟨none, none, none, none, RunResult.exited s⟩ =
        (if s = 0 then 0 else 1) := by
  intro pid s
  by_cases hs : s = 0 <;>
    simp [bootstrapProcess, nsInitialisation, nsRun, runErr, endToEndExit,
      waitErrOfChild, main, exitCodeOf, rootfsPath, hs]

/-- C8 counterexample: at a concrete failing start, the launcher exits 1
but every write — the diagnostic included — goes to standard output
(Go's `fmt.Printf`); nothing is written to standard error. -/
theorem failure_diagnostic_not_on_stderr :
    (main ⟨some "permission denied", 42, RunResult.exited 0, none⟩).outcome =
      Outcome.exit 1 ∧
    ∀ wr ∈ (main ⟨some "permission denied", 42,
        RunResult.exited 0, none⟩).writes,
      wr.channel = OutChannel.stdout := by
  refine ⟨rfl, ?_⟩
  intro wr hwr
  simp only [main, List.mem_cons, List.not_mem_nil, or_false] at hwr
  rcases hwr with h | h <;> rw [h]

/-- C8 amended: every failure in the launch sequence is reported with a
human-readable diagnostic written to standard output (not standard
error), after which the process exits with status 1: whenever the
launcher or the bootstrap exits 1, its writes are the banner followed by
exactly one diagnostic, both on standard output. -/
theorem failures_diagnose_and_exit_one :
    ∀ (lw : LauncherWorld) (args : List String) (w : BootstrapWorld),
      ((main lw).outcome = Outcome.exit 1 →
        ∃ m, (main lw).writes =
          [⟨OutChannel.stdout, "Running linux-namespace...\n"⟩,
           ⟨OutChannel.stdout, m⟩]) ∧
      ((nsInitialisation args w).outcome = Outcome.exit 1 →
        ∃ m, (nsInitialisation args w).writes =
          [⟨OutChannel.stdout, "\n>> initialising namespace <<\n\n"⟩,
           ⟨OutChannel.stdout, m⟩]) := by
  intro lw args w
  constructor
  · rcases hs : lw.startErr with _ | e <;>
      rcases hn : runErr lw.netsetgoRun with _ | e2 <;>
        rcases hw : lw.waitErr with _ | e3 <;>
          simp [main, hs, hn, hw]
  · rcases hg : args[1]? with _ | p
    · simp [nsInitialisation, hg]
    · rcases hm : w.mountProcErr with _ | e <;>
        rcases hp : w.pivotRootErr with _ | e2 <;>
          rcases hhn : w.sethostnameErr with _ | e3 <;>
            rcases hw2 : w.waitForNetworkErr with _ | e4 <;>
              rcases hr : runErr w.shellRun with _ | e5 <;>
                simp [nsInitialisation, nsRun, hg, hm, hp, hhn, hw2, hr]

/-- C8 amended-claim witness: a concrete pivot-root failure produces the
banner plus one stdout diagnostic and exit status 1. -/
theorem failures_diagnose_and_exit_one_witness :
    ∃ m, (nsInitialisation ["nsInitialisation", "/tmp/ns-process/rootfs"]
        ⟨none, some "EPERM", none, none, RunResult.exited 0⟩).writes =
      [⟨OutChannel.stdout, "\n>> initialising namespace <<\n\n"⟩,
       ⟨OutChannel.stdout, m⟩] :=
  (failures_diagnose_and_exit_one ⟨none, 0, RunResult.exited 0, none⟩
      ["nsInitialisation", "/tmp/ns-process/rootfs"]
      ⟨none, some "EPERM", none, none, RunResult.exited 0⟩).2 rfl

end LinuxNamespace
